import Mathlib

/-!
Verification of the Voicera frontend proxy route handlers.

The repository's source consists of three Next.js API route handlers, each a
thin proxy: read the inbound request, forward it to the configured backend
base URL, and relay the backend's JSON response and status, mapping any
exception to a generic 500 response.

  * POST /api/v1/members/delete-member  (auth required, JSON body passthrough)
  * GET  /api/v1/users/me               (auth required, no body)
  * GET  /api/v1/users/[email]          (no auth check, email URL-encoded)

The embedding below models JavaScript JSON values, JSON.stringify,
encodeURIComponent, the fetch outcome (network error, or a response with a
status and a body that may or may not parse as JSON), and each handler as a
pure function from the inbound request and the backend's behaviour to the
route's response together with the list of outbound requests issued.
-/

namespace Voicera

/-- JavaScript JSON values, as exchanged by the route handlers. -/
inductive Json where
  | null
  | bool (b : Bool)
  | num (n : Int)
  | str (s : String)
  | arr (elems : List Json)
  | obj (fields : List (String × Json))

/-- Hexadecimal digit character (uppercase), for percent/unicode escapes. -/
def hexDigitChar (n : Nat) : Char :=
  if n < 10 then Char.ofNat (48 + n) else Char.ofNat (55 + n)

/-- JSON string escaping as performed by JSON.stringify. -/
def jsonEscapeChar (c : Char) : String :=
  if c = Char.ofNat 34 then "\\\""
  else if c = Char.ofNat 92 then "\\\\"
  else if c = Char.ofNat 8 then "\\b"
  else if c = Char.ofNat 9 then "\\t"
  else if c = Char.ofNat 10 then "\\n"
  else if c = Char.ofNat 12 then "\\f"
  else if c = Char.ofNat 13 then "\\r"
  else if c.toNat < 32 then
    "\\u00" ++ String.singleton (hexDigitChar (c.toNat / 16))
      ++ String.singleton (hexDigitChar (c.toNat % 16))
  else String.singleton c

mutual

/-- JSON.stringify on the modelled JSON values. -/
def Json.stringify : Json → String
  | .null => "null"
  | .bool true => "true"
  | .bool false => "false"
  | .num n => toString n
  | .str s => "\"" ++ String.join (s.data.map jsonEscapeChar) ++ "\""
  | .arr es => "[" ++ stringifyElems es ++ "]"
  | .obj fs => "\x7b" ++ stringifyFields fs ++ "\x7d"

/-- Comma-separated serialization of a JSON array's elements. -/
def stringifyElems : List Json → String
  | [] => ""
  | [e] => Json.stringify e
  | e :: rest => Json.stringify e ++ "," ++ stringifyElems rest

/-- Comma-separated serialization of a JSON object's fields. -/
def stringifyFields : List (String × Json) → String
  | [] => ""
  | [(k, v)] =>
      "\"" ++ String.join (k.data.map jsonEscapeChar) ++ "\":" ++ Json.stringify v
  | (k, v) :: rest =>
      "\"" ++ String.join (k.data.map jsonEscapeChar) ++ "\":" ++ Json.stringify v
        ++ "," ++ stringifyFields rest

end

/-- Characters left unescaped by JavaScript's encodeURIComponent:
letters, digits, and - _ . ! ~ * ' ( ). -/
def uriUnescaped (c : Char) : Bool :=
  (65 ≤ c.toNat && c.toNat ≤ 90) || (97 ≤ c.toNat && c.toNat ≤ 122) ||
  (48 ≤ c.toNat && c.toNat ≤ 57) ||
  c = '-' || c = '_' || c = '.' || c = '!' || c = Char.ofNat 126 ||
  c = '*' || c = Char.ofNat 39 || c = '(' || c = ')'

/-- UTF-8 encoding of one character, as a list of byte values. -/
def utf8Bytes (c : Char) : List Nat :=
  let n := c.toNat
  if n < 128 then [n]
  else if n < 2048 then
    [192 ||| (n >>> 6), 128 ||| (n &&& 63)]
  else if n < 65536 then
    [224 ||| (n >>> 12), 128 ||| ((n >>> 6) &&& 63), 128 ||| (n &&& 63)]
  else
    [240 ||| (n >>> 18), 128 ||| ((n >>> 12) &&& 63),
     128 ||| ((n >>> 6) &&& 63), 128 ||| (n &&& 63)]

/-- Percent-encoding of one byte value, uppercase hex as in encodeURIComponent. -/
def percentByte (b : Nat) : String :=
  "%" ++ String.singleton (hexDigitChar (b / 16)) ++ String.singleton (hexDigitChar (b % 16))

/-- JavaScript's encodeURIComponent: unescaped characters pass through,
every other character is percent-encoded as its UTF-8 bytes. -/
def encodeURIComponent (s : String) : String :=
  String.join (s.data.map fun c =>
    if uriUnescaped c then String.singleton c
    else String.join ((utf8Bytes c).map percentByte))

/-- An outbound HTTP request as built by a route handler for fetch. -/
structure OutboundRequest where
  method : String
  url : String
  headers : List (String × String)
  body : Option String
deriving DecidableEq

/-- The response a route handler returns to its caller
(NextResponse.json payload and status; the status defaults to 200). -/
structure RouteResponse where
  status : Nat
  body : Json

/-- The observable outcome of the awaited fetch plus response.json():
either the fetch throws (network error), or a response arrives with a
status code and a body that may (some) or may not (none) parse as JSON. -/
inductive FetchOutcome where
  | networkError
  | response (status : Nat) (jsonBody : Option Json)

/-- Result of one handler invocation: the response sent to the caller and
the list of outbound requests issued to the backend during the invocation. -/
structure HandlerResult where
  response : RouteResponse
  calls : List OutboundRequest

/-- response.ok of the Fetch API: the status is in the range 200..299. -/
def responseOk (status : Nat) : Bool :=
  decide (200 ≤ status) && decide (status < 300)

/-- The generic error body `\x7b "error": "Internal server error" \x7d`
returned from every catch block. -/
def internalErrorBody : Json :=
  Json.obj [("error", Json.str "Internal server error")]

/-- The generic 500 response returned from every catch block. -/
def internalError500 : RouteResponse :=
  { status := 500, body := internalErrorBody }

/-- The body `\x7b "error": "Authorization header is required" \x7d` of the
401 response produced when a required Authorization header is absent. -/
def missingAuthBody : Json :=
  Json.obj [("error", Json.str "Authorization header is required")]

/-- The shared tail of every handler: await fetch(outbound), await
response.json(), then relay — a thrown fetch or a body that fails to parse
is caught and mapped to the generic 500; otherwise, if !response.ok the
backend's status and parsed body are relayed verbatim, else the parsed
body is returned with the default 200 status. -/
def fetchAndRelay (outbound : OutboundRequest) (backend : FetchOutcome) : HandlerResult :=
  match backend with
  | .networkError => { response := internalError500, calls := [outbound] }
  | .response status jsonBody =>
    match jsonBody with
    | none => { response := internalError500, calls := [outbound] }
    | some data =>
      if !responseOk status then
        { response := { status := status, body := data }, calls := [outbound] }
      else
        { response := { status := 200, body := data }, calls := [outbound] }

/-- Inbound request to POST /api/v1/members/delete-member:
the Authorization header (none when absent) and the result of
request.json() (none when the body is missing or malformed JSON). -/
structure DeleteMemberRequest where
  authHeader : Option String
  bodyJson : Option Json

/-- POST /api/v1/members/delete-member
(src/voicera_frontend/app/api/v1/members/delete-member/route.ts):
reject with 401 when the Authorization header is absent; otherwise read the
JSON body (a parse failure is caught, yielding the generic 500 with no
outbound call), then fetch the backend with Content-Type, Accept and the
verbatim Authorization header and the JSON-serialized body, and relay. -/
def deleteMemberPOST (apiBaseUrl : String) (req : DeleteMemberRequest)
    (backend : FetchOutcome) : HandlerResult :=
  match req.authHeader with
  | none =>
    { response := { status := 401, body := missingAuthBody }, calls := [] }
  | some authHeader =>
    match req.bodyJson with
    | none => { response := internalError500, calls := [] }
    | some body =>
      fetchAndRelay
        { method := "POST"
          url := apiBaseUrl ++ "/api/v1/members/delete-member"
          headers := [("Content-Type", "application/json"),
                      ("Accept", "application/json"),
                      ("Authorization", authHeader)]
          body := some (Json.stringify body) }
        backend

/-- Inbound request to GET /api/v1/users/me: the Authorization header. -/
structure UsersMeRequest where
  authHeader : Option String

/-- GET /api/v1/users/me (src/unnamed/part_000): reject with 401 when the
Authorization header is absent; otherwise fetch the backend with Accept and
the verbatim Authorization header, no body, and relay. -/
def usersMeGET (apiBaseUrl : String) (req : UsersMeRequest)
    (backend : FetchOutcome) : HandlerResult :=
  match req.authHeader with
  | none =>
    { response := { status := 401, body := missingAuthBody }, calls := [] }
  | some authHeader =>
    fetchAndRelay
      { method := "GET"
        url := apiBaseUrl ++ "/api/v1/users/me"
        headers := [("Accept", "application/json"),
                    ("Authorization", authHeader)]
        body := none }
      backend

/-- Inbound request to GET /api/v1/users/[email]: the Authorization header
is part of the inbound request but is never read by this handler. -/
structure UserByEmailRequest where
  authHeader : Option String

/-- GET /api/v1/users/[email]
(src/voicera_frontend/app/api/v1/users/[email]/route.ts): no auth check;
fetch the backend at the base URL plus /api/v1/users/ plus the
URL-encoded email, with only the Accept header and no body, and relay. -/
def usersEmailGET (apiBaseUrl : String) (email : String)
    (req : UserByEmailRequest) (backend : FetchOutcome) : HandlerResult :=
  fetchAndRelay
    { method := "GET"
      url := apiBaseUrl ++ "/api/v1/users/" ++ encodeURIComponent email
      headers := [("Accept", "application/json")]
      body := none }
    backend

/-- Whatever the backend does, the fetch-and-relay tail issues exactly the
one outbound request it was given. -/
theorem fetchAndRelay_calls (outbound : OutboundRequest) (backend : FetchOutcome) :
    (fetchAndRelay outbound backend).calls = [outbound] := by
  cases backend with
  | networkError => rfl
  | response status jsonBody =>
    cases jsonBody with
    | none => rfl
    | some data =>
      cases h : responseOk status with
      | false => simp [fetchAndRelay, h]
      | true => simp [fetchAndRelay, h]

/-- Claim C1: on the two auth-required routes (POST
/api/v1/members/delete-member and GET /api/v1/users/me), a request without
an Authorization header gets exactly HTTP 401 with body
`\x7b "error": "Authorization header is required" \x7d` and no outbound
call is made, whatever the body or the backend would have done. -/
theorem missingAuthGives401NoCall (apiBaseUrl : String) (bodyJson : Option Json)
    (backend : FetchOutcome) :
    (deleteMemberPOST apiBaseUrl { authHeader := none, bodyJson := bodyJson } backend).response
      = { status := 401, body := Json.obj [("error", Json.str "Authorization header is required")] }
    ∧ (deleteMemberPOST apiBaseUrl { authHeader := none, bodyJson := bodyJson } backend).calls = []
    ∧ (usersMeGET apiBaseUrl { authHeader := none } backend).response
      = { status := 401, body := Json.obj [("error", Json.str "Authorization header is required")] }
    ∧ (usersMeGET apiBaseUrl { authHeader := none } backend).calls = [] :=
  ⟨rfl, rfl, rfl, rfl⟩

/-- Claim C2: on every route, a backend response with a non-2xx status whose
body parses as JSON is passed through verbatim: the route's status and body
equal the backend's status and parsed body. -/
theorem nonOkPassthrough (apiBaseUrl auth email : String) (body data : Json)
    (s : Nat) (req : UserByEmailRequest) (h : responseOk s = false) :
    (deleteMemberPOST apiBaseUrl { authHeader := some auth, bodyJson := some body }
        (.response s (some data))).response = { status := s, body := data }
    ∧ (usersMeGET apiBaseUrl { authHeader := some auth }
        (.response s (some data))).response = { status := s, body := data }
    ∧ (usersEmailGET apiBaseUrl email req
        (.response s (some data))).response = { status := s, body := data } := by
  unfold deleteMemberPOST usersMeGET usersEmailGET fetchAndRelay
  simp [h]

/-- Witness for C2: GET /api/v1/users/unknown@example.com with the backend
returning 404 `\x7b "error": "not found" \x7d` yields exactly that
status and body. -/
theorem nonOkPassthroughWitness :
    (usersEmailGET "http://backend" "unknown@example.com" { authHeader := none }
        (.response 404 (some (Json.obj [("error", Json.str "not found")])))).response
      = { status := 404, body := Json.obj [("error", Json.str "not found")] } :=
  (nonOkPassthrough "http://backend" "Bearer t" "unknown@example.com" Json.null
    (Json.obj [("error", Json.str "not found")]) 404 { authHeader := none } rfl).2.2

/-- Counterexample to claim C3 as stated: GET /api/v1/users/[email] does
NOT forward the caller's Authorization header — its one outbound request
carries only the Accept header. -/
theorem userByEmailDropsAuth :
    ((usersEmailGET "http://backend" "a@b.com" { authHeader := some "Bearer token" }
        FetchOutcome.networkError).calls.all
      fun c => decide (("Authorization", "Bearer token") ∈ c.headers)) = false := by
  decide

/-- Claim C3 (amended): on the routes that read the Authorization header
(POST delete-member and GET users/me), every outbound request carries the
inbound Authorization header value verbatim; GET /api/v1/users/[email]
never reads the header, so no such propagation happens there. -/
theorem authHeaderForwardedVerbatim (apiBaseUrl auth : String) (body : Json)
    (backend : FetchOutcome) :
    (∀ c ∈ (deleteMemberPOST apiBaseUrl { authHeader := some auth, bodyJson := some body }
        backend).calls, ("Authorization", auth) ∈ c.headers)
    ∧ (∀ c ∈ (usersMeGET apiBaseUrl { authHeader := some auth } backend).calls,
        ("Authorization", auth) ∈ c.headers) := by
  constructor
  · intro c hc
    unfold deleteMemberPOST at hc
    rw [fetchAndRelay_calls] at hc
    simp only [List.mem_singleton] at hc
    subst hc
    simp
  · intro c hc
    unfold usersMeGET at hc
    rw [fetchAndRelay_calls] at hc
    simp only [List.mem_singleton] at hc
    subst hc
    simp

/-- Witness for the amended C3 at a concrete input. -/
theorem authHeaderForwardedVerbatimWitness :
    ∀ c ∈ (usersMeGET "http://backend" { authHeader := some "Bearer abc" }
        FetchOutcome.networkError).calls,
      ("Authorization", "Bearer abc") ∈ c.headers :=
  (authHeaderForwardedVerbatim "http://backend" "Bearer abc" Json.null
    FetchOutcome.networkError).2

/-- Claim C4: on every route, every caught exception — a malformed inbound
body on delete-member, a network error during fetch, or a backend body that
fails to parse as JSON — yields HTTP 500 with exactly the body
`\x7b "error": "Internal server error" \x7d`. -/
theorem caughtErrorsGive500 (apiBaseUrl auth email : String) (body : Json)
    (s : Nat) (req : UserByEmailRequest) (backend : FetchOutcome) :
    (deleteMemberPOST apiBaseUrl { authHeader := some auth, bodyJson := none }
        backend).response
      = { status := 500, body := Json.obj [("error", Json.str "Internal server error")] }
    ∧ (deleteMemberPOST apiBaseUrl { authHeader := some auth, bodyJson := some body }
        FetchOutcome.networkError).response
      = { status := 500, body := Json.obj [("error", Json.str "Internal server error")] }
    ∧ (deleteMemberPOST apiBaseUrl { authHeader := some auth, bodyJson := some body }
        (.response s none)).response
      = { status := 500, body := Json.obj [("error", Json.str "Internal server error")] }
    ∧ (usersMeGET apiBaseUrl { authHeader := some auth }
        FetchOutcome.networkError).response
      = { status := 500, body := Json.obj [("error", Json.str "Internal server error")] }
    ∧ (usersMeGET apiBaseUrl { authHeader := some auth } (.response s none)).response
      = { status := 500, body := Json.obj [("error", Json.str "Internal server error")] }
    ∧ (usersEmailGET apiBaseUrl email req FetchOutcome.networkError).response
      = { status := 500, body := Json.obj [("error", Json.str "Internal server error")] }
    ∧ (usersEmailGET apiBaseUrl email req (.response s none)).response
      = { status := 500, body := Json.obj [("error", Json.str "Internal server error")] } :=
  ⟨rfl, rfl, rfl, rfl, rfl, rfl, rfl⟩

/-- Claim C5: on every route, a backend response with a 2xx status whose
body parses as JSON is answered with status 200 (whichever 2xx status the
backend used) and the parsed body. -/
theorem okStatusGives200WithBody (apiBaseUrl auth email : String) (body data : Json)
    (s : Nat) (req : UserByEmailRequest) (h : responseOk s = true) :
    (deleteMemberPOST apiBaseUrl { authHeader := some auth, bodyJson := some body }
        (.response s (some data))).response = { status := 200, body := data }
    ∧ (usersMeGET apiBaseUrl { authHeader := some auth }
        (.response s (some data))).response = { status := 200, body := data }
    ∧ (usersEmailGET apiBaseUrl email req
        (.response s (some data))).response = { status := 200, body := data } := by
  unfold deleteMemberPOST usersMeGET usersEmailGET fetchAndRelay
  simp [h]

/-- Witness for C5: a backend 201 with body
`\x7b "success": true \x7d` is relayed as 200 with that body. -/
theorem okStatusGives200WithBodyWitness :
    (deleteMemberPOST "http://backend"
        { authHeader := some "Bearer t",
          bodyJson := some (Json.obj [("memberId", Json.str "123")]) }
        (.response 201 (some (Json.obj [("success", Json.bool true)])))).response
      = { status := 200, body := Json.obj [("success", Json.bool true)] } :=
  (okStatusGives200WithBody "http://backend" "Bearer t" "e"
    (Json.obj [("memberId", Json.str "123")])
    (Json.obj [("success", Json.bool true)]) 201 { authHeader := none } rfl).1

/-- Claim C6: on every route, a backend body that fails to parse as JSON
yields the generic 500 whatever the backend's status code — the body is
parsed before the status is inspected, so even a non-2xx backend response
with a non-JSON body is not passed through. -/
theorem nonJsonBodyGives500 (apiBaseUrl auth email : String) (body : Json)
    (s : Nat) (req : UserByEmailRequest) :
    (deleteMemberPOST apiBaseUrl { authHeader := some auth, bodyJson := some body }
        (.response s none)).response = internalError500
    ∧ (usersMeGET apiBaseUrl { authHeader := some auth }
        (.response s none)).response = internalError500
    ∧ (usersEmailGET apiBaseUrl email req (.response s none)).response
      = internalError500 :=
  ⟨rfl, rfl, rfl⟩

/-- Claim C7: GET /api/v1/users/[email] requires no authentication — for
every inbound request, with or without an Authorization header, the handler
contacts the backend (exactly one outbound request, to the encoded URL),
and the response is the 401 missing-authorization response only if the
backend itself returned it. -/
theorem userByEmailNeedsNoAuth (apiBaseUrl email : String)
    (req : UserByEmailRequest) (backend : FetchOutcome)
    (h : backend ≠ FetchOutcome.response 401 (some missingAuthBody)) :
    (usersEmailGET apiBaseUrl email req backend).calls
      = [{ method := "GET",
           url := apiBaseUrl ++ "/api/v1/users/" ++ encodeURIComponent email,
           headers := [("Accept", "application/json")],
           body := none }]
    ∧ (usersEmailGET apiBaseUrl email req backend).response
      ≠ { status := 401, body := missingAuthBody } := by
  refine ⟨fetchAndRelay_calls _ backend, ?_⟩
  cases backend with
  | networkError =>
    intro hEq
    have h500 : (500 : Nat) = 401 := congrArg RouteResponse.status hEq
    exact absurd h500 (by decide)
  | response s jsonBody =>
    cases jsonBody with
    | none =>
      intro hEq
      have h500 : (500 : Nat) = 401 := congrArg RouteResponse.status hEq
      exact absurd h500 (by decide)
    | some data =>
      cases hok : responseOk s with
      | true =>
        intro hEq
        have hx := congrArg RouteResponse.status hEq
        simp [usersEmailGET, fetchAndRelay, hok] at hx
      | false =>
        intro hEq
        have hx := hEq
        simp only [usersEmailGET, fetchAndRelay, hok, Bool.not_false, if_true] at hx
        have hs : s = 401 := congrArg RouteResponse.status hx
        have hb : data = missingAuthBody := congrArg RouteResponse.body hx
        exact h (by rw [hs, hb])

/-- Witness for C7 at a concrete input without an Authorization header. -/
theorem userByEmailNeedsNoAuthWitness :
    (usersEmailGET "http://backend" "x@y.com" { authHeader := none }
        FetchOutcome.networkError).response
      ≠ { status := 401, body := missingAuthBody } :=
  (userByEmailNeedsNoAuth "http://backend" "x@y.com" { authHeader := none }
    FetchOutcome.networkError (by intro h; cases h)).2

/-- Counterexample to claim C8 as stated: a delete-member request without
an Authorization header performs zero outbound calls, not exactly one. -/
theorem missingAuthMakesNoCall :
    (deleteMemberPOST "http://backend"
        { authHeader := none, bodyJson := some (Json.obj [("memberId", Json.str "123")]) }
        FetchOutcome.networkError).calls.length ≠ 1 := by
  decide

/-- Claim C8 (amended): every handler invocation performs at most one
outbound call — exactly one once the handler reaches the fetch, zero when
it fails fast — and never a second call for the same inbound request. -/
theorem atMostOneOutboundCall (apiBaseUrl email : String)
    (dreq : DeleteMemberRequest) (mreq : UsersMeRequest)
    (ereq : UserByEmailRequest) (backend : FetchOutcome) :
    (deleteMemberPOST apiBaseUrl dreq backend).calls.length ≤ 1
    ∧ (usersMeGET apiBaseUrl mreq backend).calls.length ≤ 1
    ∧ (usersEmailGET apiBaseUrl email ereq backend).calls.length ≤ 1 := by
  refine ⟨?_, ?_, ?_⟩
  · obtain ⟨a, b⟩ := dreq
    cases a with
    | none => exact Nat.zero_le 1
    | some auth =>
      cases b with
      | none => exact Nat.zero_le 1
      | some body =>
        unfold deleteMemberPOST
        rw [fetchAndRelay_calls]
        exact Nat.le_refl 1
  · obtain ⟨a⟩ := mreq
    cases a with
    | none => exact Nat.zero_le 1
    | some auth =>
      unfold usersMeGET
      rw [fetchAndRelay_calls]
      exact Nat.le_refl 1
  · unfold usersEmailGET
    rw [fetchAndRelay_calls]
    exact Nat.le_refl 1

/-- Claim C9: every outbound request targets the configured base URL
concatenated with the route's fixed resource path, the email path parameter
being encodeURIComponent-encoded; concretely,
encodeURIComponent "unknown@example.com" = "unknown%40example.com". -/
theorem outboundUrlIsBasePlusPath (apiBaseUrl auth email : String) (body : Json)
    (backend : FetchOutcome) (req : UserByEmailRequest) :
    (∀ c ∈ (deleteMemberPOST apiBaseUrl { authHeader := some auth, bodyJson := some body }
        backend).calls, c.url = apiBaseUrl ++ "/api/v1/members/delete-member")
    ∧ (∀ c ∈ (usersMeGET apiBaseUrl { authHeader := some auth } backend).calls,
        c.url = apiBaseUrl ++ "/api/v1/users/me")
    ∧ (∀ c ∈ (usersEmailGET apiBaseUrl email req backend).calls,
        c.url = apiBaseUrl ++ "/api/v1/users/" ++ encodeURIComponent email)
    ∧ encodeURIComponent "unknown@example.com" = "unknown%40example.com" := by
  refine ⟨?_, ?_, ?_, by decide⟩
  · intro c hc
    unfold deleteMemberPOST at hc
    rw [fetchAndRelay_calls] at hc
    simp only [List.mem_singleton] at hc
    subst hc
    rfl
  · intro c hc
    unfold usersMeGET at hc
    rw [fetchAndRelay_calls] at hc
    simp only [List.mem_singleton] at hc
    subst hc
    rfl
  · intro c hc
    unfold usersEmailGET at hc
    rw [fetchAndRelay_calls] at hc
    simp only [List.mem_singleton] at hc
    subst hc
    rfl

/-- Witness for C9: the concrete encoding equality at a concrete input. -/
theorem outboundUrlIsBasePlusPathWitness :
    encodeURIComponent "unknown@example.com" = "unknown%40example.com" :=
  (outboundUrlIsBasePlusPath "http://backend" "t" "unknown@example.com" Json.null
    FetchOutcome.networkError { authHeader := none }).2.2.2

/-- Claim C10: in POST /api/v1/members/delete-member the Authorization
check precedes the body read — without the header the response is the 401
even when the body is malformed, and with the header but a malformed body
the response is the generic 500 with no outbound call. -/
theorem authCheckPrecedesBodyRead (apiBaseUrl auth : String)
    (bodyJson : Option Json) (backend : FetchOutcome) :
    (deleteMemberPOST apiBaseUrl { authHeader := none, bodyJson := bodyJson }
        backend).response = { status := 401, body := missingAuthBody }
    ∧ (deleteMemberPOST apiBaseUrl { authHeader := some auth, bodyJson := none }
        backend).response = internalError500
    ∧ (deleteMemberPOST apiBaseUrl { authHeader := some auth, bodyJson := none }
        backend).calls = [] :=
  ⟨rfl, rfl, rfl⟩

end Voicera
